import Mathlib

/-!
Verification of the score-normalization core of the well-being dashboard
(src/dashboard.py). The domain logic is embedded shallowly: Python numbers
become rationals (ℚ), rows of the pandas DataFrame become records, and the
row-wise `df.apply` pipeline becomes a list transformation. The `df.empty`
guard that stops the page before the global mean is computed is modelled
as an explicit error value.
-/

namespace Dashboard

/-- One input record of the stats DataFrame: a section name, the raw
average `moyenne` on the section's native scale, and the response count
`nb_reponses`. Field `sectionName` embeds the Python field `section`
(a Lean keyword). -/
structure SectionStat where
  sectionName : String
  moyenne : ℚ
  nb_reponses : ℕ
  deriving Repr, DecidableEq

/-- Embeds `detect_max_scale` (dashboard.py lines 70-77): the native scale
maximum of a section, by case-sensitive membership in singleton lists,
with a silent default of 5. -/
def detect_max_scale (s : String) : ℤ :=
  if s ∈ ["Efficacité personnelle"] then 4
  else if s ∈ ["Énergie et engagement"] then 7
  else 5

/-- Embeds `normalize_score` (dashboard.py lines 79-82): affine rescaling
of a row's `moyenne` onto the 1-10 scale. -/
def normalize_score (row : SectionStat) : ℚ :=
  1 + (row.moyenne - 1) * (9 / ((detect_max_scale row.sectionName : ℚ) - 1))

/-- Embeds `score_to_color` (dashboard.py lines 87-94): the three-tier
color classification. `"#e74c3c"` (red) is the Low tier, `"#f1c40f"`
(yellow) is Medium, `"#2ecc71"` (green) is High, matching the legend
rendered at lines 150-161. -/
def score_to_color (score : ℚ) : String :=
  if score ≤ 3 then "#e74c3c"
  else if score ≤ 6 then "#f1c40f"
  else "#2ecc71"

/-- One output record: the input row together with the two derived
columns `score_10` and `couleur` added at lines 84 and 96. -/
structure NormalizedSectionStat where
  sectionName : String
  moyenne : ℚ
  nb_reponses : ℕ
  score_10 : ℚ
  couleur : String
  deriving Repr, DecidableEq

/-- The row-wise computation performed by `df.apply(normalize_score, axis=1)`
and `df["score_10"].apply(score_to_color)` for a single row: the derived
column `couleur` is computed from the derived column `score_10`. -/
def normalize_one (r : SectionStat) : NormalizedSectionStat :=
  { sectionName := r.sectionName
    moyenne := r.moyenne
    nb_reponses := r.nb_reponses
    score_10 := normalize_score r
    couleur := score_to_color (normalize_score r) }

/-- Embeds the whole column pipeline (dashboard.py lines 84-96): every row
of the frame receives its `score_10` and `couleur` values in order. -/
def normalizeAll : List SectionStat → List NormalizedSectionStat
  | [] => []
  | r :: rs => normalize_one r :: normalizeAll rs

/-- The single error of the core: the `df.empty` guard at lines 65-67
stops the page before any aggregate is computed. -/
inductive CoreError where
  | emptyInput
  deriving Repr, DecidableEq

/-- Running sum of the `score_10` column, as the mean computation
traverses the frame. -/
def sum_scores (xs : List NormalizedSectionStat) : ℚ :=
  xs.foldl (fun acc r => acc + r.score_10) 0

/-- Embeds `global_mean = df["score_10"].mean()` (line 99) together with
the empty-frame guard of lines 65-67: on an empty frame the page stops
(modelled as `CoreError.emptyInput`), otherwise the arithmetic mean of
the `score_10` column is produced. -/
def global_mean (xs : List NormalizedSectionStat) : Except CoreError ℚ :=
  if xs.isEmpty then .error .emptyInput
  else .ok (sum_scores xs / xs.length)

lemma detect_max_scale_cases (s : String) :
    detect_max_scale s = 4 ∨ detect_max_scale s = 7 ∨ detect_max_scale s = 5 := by
  unfold detect_max_scale
  split
  · exact Or.inl rfl
  · split
    · exact Or.inr (Or.inl rfl)
    · exact Or.inr (Or.inr rfl)

lemma foldl_score_eq (xs : List NormalizedSectionStat) (a : ℚ) :
    xs.foldl (fun acc r => acc + r.score_10) a
      = a + (xs.map NormalizedSectionStat.score_10).sum := by
  induction xs generalizing a with
  | nil => simp
  | cons r rs ih => simp [List.foldl, ih]; ring

lemma sum_scores_eq (xs : List NormalizedSectionStat) :
    sum_scores xs = (xs.map NormalizedSectionStat.score_10).sum := by
  simpa using foldl_score_eq xs 0

/-- C1: `normalize_score` computes exactly the affine formula
`1 + (moyenne - 1) * (9 / (detect_max_scale - 1))`, and no clamping is
applied: an out-of-range input produces an output below 1 or above 10. -/
theorem C1_normalize_formula :
    (∀ r : SectionStat, normalize_score r =
      1 + (r.moyenne - 1) * (9 / ((detect_max_scale r.sectionName : ℚ) - 1))) ∧
    normalize_score ⟨"Charge de travail", 0, 0⟩ < 1 ∧
    10 < normalize_score ⟨"Charge de travail", 6, 0⟩ := by
  have h5 : detect_max_scale "Charge de travail" = 5 := by decide
  refine ⟨fun r => rfl, ?_, ?_⟩ <;> norm_num [normalize_score, h5]

/-- C2: the color classification has closed-low boundaries: scores up to 3
are red (Low), scores in (3, 6] are yellow (Medium), scores above 6 are
green (High); in particular 3 itself is red and 6 itself is yellow. -/
theorem C2_classify_tiers :
    (∀ score : ℚ, score ≤ 3 → score_to_color score = "#e74c3c") ∧
    (∀ score : ℚ, 3 < score → score ≤ 6 → score_to_color score = "#f1c40f") ∧
    (∀ score : ℚ, 6 < score → score_to_color score = "#2ecc71") ∧
    score_to_color 3 = "#e74c3c" ∧
    score_to_color 6 = "#f1c40f" := by
  refine ⟨?_, ?_, ?_, by decide, by decide⟩
  · intro score h
    simp [score_to_color, h]
  · intro score h1 h2
    have h3 : ¬ score ≤ 3 := by linarith
    simp [score_to_color, h3, h2]
  · intro score h
    have h3 : ¬ score ≤ 3 := by linarith
    have h6 : ¬ score ≤ 6 := by linarith
    simp [score_to_color, h3, h6]

theorem C2_classify_tiers_witness :
    score_to_color 2 = "#e74c3c" ∧ score_to_color 5 = "#f1c40f" ∧
    score_to_color 7 = "#2ecc71" :=
  ⟨C2_classify_tiers.1 2 (by norm_num),
   C2_classify_tiers.2.1 5 (by norm_num) (by norm_num),
   C2_classify_tiers.2.2.1 7 (by norm_num)⟩

/-- C3: `detect_max_scale` is the fixed case-sensitive lookup mapping
"Efficacité personnelle" to 4, "Énergie et engagement" to 7, and every
other string to the default 5. -/
theorem C3_scale_lookup :
    detect_max_scale "Efficacité personnelle" = 4 ∧
    detect_max_scale "Énergie et engagement" = 7 ∧
    ∀ s : String, s ≠ "Efficacité personnelle" → s ≠ "Énergie et engagement" →
      detect_max_scale s = 5 := by
  refine ⟨by decide, by decide, ?_⟩
  intro s h1 h2
  simp [detect_max_scale, h1, h2]

theorem C3_scale_lookup_witness :
    detect_max_scale "Anything else" = 5 :=
  C3_scale_lookup.2.2 "Anything else" (by decide) (by decide)

/-- C4: the normalization endpoints are exact: a raw average of 1 maps to
exactly 1 and a raw average equal to the section's scale maximum maps to
exactly 10, for every section name. -/
theorem C4_endpoints (s : String) (n : ℕ) :
    normalize_score ⟨s, 1, n⟩ = 1 ∧
    normalize_score ⟨s, ((detect_max_scale s : ℤ) : ℚ), n⟩ = 10 := by
  constructor
  · simp [normalize_score]
  · rcases detect_max_scale_cases s with h | h | h <;> simp [normalize_score, h] <;> norm_num

/-- C9: `detect_max_scale` always returns one of 4, 5, 7, hence is
greater than 1 and the divisor `detect_max_scale s - 1` of
`normalize_score` is never zero, for every input string. -/
theorem C9_divisor_safe (s : String) :
    1 < detect_max_scale s ∧
    ((detect_max_scale s : ℚ) - 1 ≠ 0) ∧
    (detect_max_scale s = 4 ∨ detect_max_scale s = 5 ∨ detect_max_scale s = 7) := by
  rcases detect_max_scale_cases s with h | h | h <;> rw [h] <;> norm_num

/-- C5: `global_mean` fails with the empty-input error exactly when the
input is empty; on any non-empty input it succeeds with a value,
so the empty-input error is the only failure of the core. -/
theorem C5_empty_input_error (xs : List NormalizedSectionStat) :
    (global_mean xs = .error CoreError.emptyInput ↔ xs = []) ∧
    (xs ≠ [] → global_mean xs = .ok (sum_scores xs / xs.length)) := by
  constructor
  · cases xs with
    | nil => simp [global_mean]
    | cons r rs => simp [global_mean]
  · intro h
    cases xs with
    | nil => exact absurd rfl h
    | cons r rs => simp [global_mean]

theorem C5_empty_input_error_witness :
    global_mean [⟨"A", 3, 1, (11 : ℚ) / 2, "#f1c40f"⟩]
      = .ok (sum_scores [⟨"A", 3, 1, (11 : ℚ) / 2, "#f1c40f"⟩] / 1) := by
  have h := (C5_empty_input_error [⟨"A", 3, 1, (11 : ℚ) / 2, "#f1c40f"⟩]).2 (by simp)
  simpa using h

/-- C6: for a fixed section name, `normalize_score` is strictly increasing
in the raw average, whatever the response counts. -/
theorem C6_strict_mono (s : String) (n m : ℕ) (x y : ℚ) (h : x < y) :
    normalize_score ⟨s, x, n⟩ < normalize_score ⟨s, y, m⟩ := by
  rcases detect_max_scale_cases s with hs | hs | hs <;>
    simp only [normalize_score, hs] <;> norm_num <;> linarith

theorem C6_strict_mono_witness :
    normalize_score ⟨"A", 2, 0⟩ < normalize_score ⟨"A", 3, 1⟩ :=
  C6_strict_mono "A" 0 1 2 3 (by norm_num)

/-- C7: on every non-empty list, `global_mean` returns the arithmetic mean
of the `score_10` field: the sum of the column divided by its length. -/
theorem C7_global_mean_is_mean (xs : List NormalizedSectionStat) (h : xs ≠ []) :
    global_mean xs
      = .ok ((xs.map NormalizedSectionStat.score_10).sum / xs.length) := by
  cases xs with
  | nil => exact absurd rfl h
  | cons r rs => simp [global_mean, sum_scores_eq]

theorem C7_global_mean_is_mean_witness :
    global_mean [⟨"A", 3, 1, 4, "#f1c40f"⟩, ⟨"B", 2, 2, 6, "#f1c40f"⟩]
      = .ok 5 := by
  have h := C7_global_mean_is_mean
    [⟨"A", 3, 1, 4, "#f1c40f"⟩, ⟨"B", 2, 2, 6, "#f1c40f"⟩] (by simp)
  rw [h]
  norm_num

lemma normalizeAll_length (stats : List SectionStat) :
    (normalizeAll stats).length = stats.length := by
  induction stats with
  | nil => rfl
  | cons r rs ih => simp [normalizeAll, ih]

lemma normalizeAll_get (stats : List SectionStat) (i : ℕ)
    (hi : i < stats.length) (hi' : i < (normalizeAll stats).length) :
    (normalizeAll stats).get ⟨i, hi'⟩ = normalize_one (stats.get ⟨i, hi⟩) := by
  induction stats generalizing i with
  | nil => exact absurd hi (Nat.not_lt_zero i)
  | cons r rs ih =>
    cases i with
    | zero => rfl
    | succ j =>
      exact ih j (Nat.lt_of_succ_lt_succ hi)
        (Nat.lt_of_succ_lt_succ (by simpa [normalizeAll] using hi'))

/-- C8: the column pipeline maps the empty frame to the empty frame,
preserves length and order, and at every index copies `section`,
`moyenne` and `nb_reponses` unchanged while filling `score_10` with
`normalize_score` and `couleur` with `score_to_color` of that score. -/
theorem C8_normalizeAll_pointwise :
    normalizeAll [] = [] ∧
    (∀ stats : List SectionStat, (normalizeAll stats).length = stats.length) ∧
    (∀ (stats : List SectionStat) (i : ℕ) (hi : i < stats.length)
      (hi' : i < (normalizeAll stats).length),
      ((normalizeAll stats).get ⟨i, hi'⟩).sectionName
          = (stats.get ⟨i, hi⟩).sectionName ∧
      ((normalizeAll stats).get ⟨i, hi'⟩).moyenne = (stats.get ⟨i, hi⟩).moyenne ∧
      ((normalizeAll stats).get ⟨i, hi'⟩).nb_reponses
          = (stats.get ⟨i, hi⟩).nb_reponses ∧
      ((normalizeAll stats).get ⟨i, hi'⟩).score_10
          = normalize_score (stats.get ⟨i, hi⟩) ∧
      ((normalizeAll stats).get ⟨i, hi'⟩).couleur
          = score_to_color (normalize_score (stats.get ⟨i, hi⟩))) := by
  refine ⟨rfl, normalizeAll_length, ?_⟩
  intro stats i hi hi'
  rw [normalizeAll_get stats i hi hi']
  exact ⟨rfl, rfl, rfl, rfl, rfl⟩

theorem C8_normalizeAll_pointwise_witness :
    (normalizeAll [⟨"A", 2, 3⟩]).length = 1 ∧
    ((normalizeAll [⟨"A", 2, 3⟩]).get
        ⟨0, by simp [normalizeAll_length]⟩).nb_reponses = 3 := by
  refine ⟨C8_normalizeAll_pointwise.2.1 [⟨"A", 2, 3⟩], ?_⟩
  have h := (C8_normalizeAll_pointwise.2.2 [⟨"A", 2, 3⟩] 0 (by simp)
    (by simp [normalizeAll_length])).2.2.1
  simpa using h

/-- C10 counterexample: two input records agreeing on `section` and
`moyenne` but differing in `nb_reponses` produce different output
records, because `nb_reponses` is copied into the output; so the output
record does not depend only on `section` and `moyenne`. -/
theorem C10_counterexample :
    (⟨"A", 3, 0⟩ : SectionStat).sectionName = (⟨"A", 3, 1⟩ : SectionStat).sectionName ∧
    (⟨"A", 3, 0⟩ : SectionStat).moyenne = (⟨"A", 3, 1⟩ : SectionStat).moyenne ∧
    normalizeAll [⟨"A", 3, 0⟩] ≠ normalizeAll [⟨"A", 3, 1⟩] := by
  refine ⟨rfl, rfl, ?_⟩
  intro h
  have h0 : (normalize_one ⟨"A", 3, 0⟩).nb_reponses
      = (normalize_one ⟨"A", 3, 1⟩).nb_reponses := by
    have := List.head_eq_of_cons_eq h
    rw [this]
  exact Nat.zero_ne_one h0

/-- C10 amended: the derived columns `score_10` and `couleur` of each
output record depend only on that record's `section` and `moyenne`
(while the copied `nb_reponses` also carries over), each output record
depends on its own input record alone, and the pipeline distributes over
concatenation. -/
theorem C10_elementwise_amended :
    (∀ r r2 : SectionStat, r.sectionName = r2.sectionName → r.moyenne = r2.moyenne →
      (normalize_one r).score_10 = (normalize_one r2).score_10 ∧
      (normalize_one r).couleur = (normalize_one r2).couleur) ∧
    (∀ xs ys : List SectionStat,
      normalizeAll (xs ++ ys) = normalizeAll xs ++ normalizeAll ys) := by
  constructor
  · intro r r2 hs hm
    have hn : normalize_score r = normalize_score r2 := by
      simp [normalize_score, hs, hm]
    exact ⟨hn, by simp [normalize_one, hn]⟩
  · intro xs ys
    induction xs with
    | nil => rfl
    | cons r rs ih => simp [normalizeAll, ih]

theorem C10_elementwise_amended_witness :
    (normalize_one ⟨"A", 3, 0⟩).score_10 = (normalize_one ⟨"A", 3, 1⟩).score_10 ∧
    normalizeAll ([⟨"A", 3, 0⟩] ++ [⟨"B", 4, 2⟩])
      = normalizeAll [⟨"A", 3, 0⟩] ++ normalizeAll [⟨"B", 4, 2⟩] :=
  ⟨(C10_elementwise_amended.1 ⟨"A", 3, 0⟩ ⟨"A", 3, 1⟩ rfl rfl).1,
   C10_elementwise_amended.2 [⟨"A", 3, 0⟩] [⟨"B", 4, 2⟩]⟩

end Dashboard
